import Mathlib

/-!
Verification of the realdds `dds_device_server`
(src/third-party/realdds/src/dds-device-server.cpp).

The embedding models JSON payloads with a small inductive `J`, option
objects with integer values (the server only stores and echoes numeric
option values; it performs no arithmetic on them, so the exact numeric
type is irrelevant), streams as records of the accessors the server
reads, and the server itself as a record of the member fields of the
C++ class.  Exceptions are modelled with `Except String` / an explicit
error component; a C++ function that mutates its object becomes a Lean
function from state to state.
-/

/-- Minimal JSON value model: null, strings, numbers, arrays, objects.
Objects are association lists in insertion order. -/
inductive J where
  | null : J
  | str : String → J
  | num : Int → J
  | arr : List J → J
  | obj : List (String × J) → J

mutual

/-- Serialization of a JSON value, mirroring the dump used when the code
streams a json into an error message. -/
def J.render : J → String
  | .null => "null"
  | .str s => "\"" ++ s ++ "\""
  | .num n => toString n
  | .arr xs => "[" ++ J.renderItems xs ++ "]"
  | .obj kvs => "\x7b" ++ J.renderFields kvs ++ "\x7d"

/-- Comma-separated rendering of array elements. -/
def J.renderItems : List J → String
  | [] => ""
  | [x] => J.render x
  | x :: y :: xs => J.render x ++ "," ++ J.renderItems (y :: xs)

/-- Comma-separated rendering of object fields. -/
def J.renderFields : List (String × J) → String
  | [] => ""
  | [(k, v)] => "\"" ++ k ++ "\":" ++ J.render v
  | (k, v) :: kv :: kvs => "\"" ++ k ++ "\":" ++ J.render v ++ "," ++ J.renderFields (kv :: kvs)

end

/-- Lookup of a key in a JSON object (`json::find` / `json::at`); `none`
both for a missing key and for a non-object. -/
def J.findKey : J → String → Option J
  | .obj kvs, k => kvs.lookup k
  | _, _ => none

/-- Lookup with a default, mirroring `rsutils::json::nested` which yields
a null json when the key is absent. -/
def J.findD (j : J) (k : String) (d : J) : J :=
  (j.findKey k).getD d

/-- Association-list insert-or-assign helper for `J.setKey`. -/
def J.setKeyList : List (String × J) → String → J → List (String × J)
  | [], k, v => [(k, v)]
  | (k', v') :: rest, k, v =>
    if k' = k then (k, v) :: rest else (k', v') :: J.setKeyList rest k v

/-- Insert-or-assign of a key in a JSON object (`reply[key] = value`).
On a non-object the C++ `operator[]` only occurs for the (object) reply,
so other shapes are returned unchanged. -/
def J.setKey : J → String → J → J
  | .obj kvs, k, v => .obj (J.setKeyList kvs k v)
  | .null, k, v => .obj [(k, v)]
  | j, _, _ => j


/-- A device option as the server sees it: a name and a cached numeric
value, read with `get_name` / `get_value` and written with `set_value`.
The server stores and echoes values without arithmetic, so the numeric
payload is modelled as an integer. -/
structure OptionObj where
  name : String
  value : Int
deriving DecidableEq

/-- Kind of a stream server, a closed variant deciding the shape of the
intrinsics in the stream-options discovery message (video carries a list
of intrinsics, motion carries accel and gyro intrinsics, other kinds
leave intrinsics as the default null json). The serialized intrinsics
are opaque json values. -/
inductive StreamKind where
  | video : List J → StreamKind
  | motion : J → J → StreamKind
  | other : StreamKind

/-- A stream server, modelled as the record of accessors the device
server reads (`name`, `sensor_name`, `type_string`, `profiles`,
`default_profile_index`, `metadata_enabled`, `options`,
`recommended_filters`) plus the stream kind for the intrinsics shape.
`open_error` models whether `stream->open( topic_name, publisher )`
throws (e.g. a stream with no profiles); `none` means opening
succeeds. -/
structure StreamServer where
  name : String
  sensor_name : String
  type_string : String
  profiles : List J
  default_profile_index : Nat
  metadata_enabled : Bool
  options : List OptionObj
  kind : StreamKind
  recommended_filters : List String
  open_error : Option String

/-- A discovery message, one constructor per message id produced by the
discovery protocol builder; each constructor carries exactly the data
the C++ code serializes into the corresponding json. -/
inductive DiscoveryMsg where
  | deviceHeader : Nat → List (String × String × J) → DiscoveryMsg
  | deviceOptions : List OptionObj → DiscoveryMsg
  | streamHeader : String → String → String → List J → Nat → Bool → DiscoveryMsg
  | streamOptions : String → List OptionObj → J → List String → DiscoveryMsg

/-- Modelled from the spec: the notification server
(`dds-notification-server`, not part of the sources under
verification) caches discovery notifications in the order they are
added and replays them to late joiners; it also sends one-shot
notifications (replies). We record the cached discovery log, the
one-shot messages sent, and whether `run()` was called. -/
structure NotificationServer where
  discovery : List DiscoveryMsg
  sent : List J
  running : Bool

/-- Modelled from the spec: a freshly constructed notification server
has an empty discovery cache, nothing sent, and is not yet running. -/
def NotificationServer.fresh : NotificationServer :=
  { discovery := [], sent := [], running := false }

/-- Modelled from the spec: `add_discovery_notification` appends the
message to the cached, ordered discovery log. -/
def NotificationServer.add_discovery_notification
    (ns : NotificationServer) (m : DiscoveryMsg) : NotificationServer :=
  { ns with discovery := ns.discovery ++ [m] }

/-- Modelled from the spec: `run()` starts the channel. -/
def NotificationServer.run (ns : NotificationServer) : NotificationServer :=
  { ns with running := true }

/-- Modelled from the spec: `send_notification` publishes a one-shot
message (e.g. a control reply); the transport write may fail. We model
the transport outcome by a boolean passed in by the caller's context. -/
def NotificationServer.send_notification
    (ns : NotificationServer) (pub_ok : Bool) (n : J) : Except String NotificationServer :=
  if pub_ok then .ok { ns with sent := ns.sent ++ [n] } else .error "failed to write message"

/-- The state of a `dds_device_server`: its member fields. The
`_publisher`/`_subscriber` handles and the dispatcher thread itself are
transport resources with no observable state here; `_control_reader`,
`_metadata_writer` and `_broadcaster` are modelled by their presence. -/
structure ServerState where
  topic_root : String
  options : List OptionObj
  stream_name_to_server : List (String × StreamServer)
  notification_server : Option NotificationServer
  control_reader : Bool
  metadata_writer : Bool
  broadcaster : Bool

/-- Modelled from the spec: `is_valid()` (declared in the header, which
is not among the sources) reports whether the server has been
initialized; per the spec lifecycle, that is the presence of the
notification channel, consistent with `broadcast`'s own
"not initialized" check on `_notification_server`. -/
def ServerState.is_valid (s : ServerState) : Bool :=
  s.notification_server.isSome

/-- Apply a function to the notification server, when present. -/
def ServerState.with_ns (s : ServerState) (f : NotificationServer → NotificationServer) :
    ServerState :=
  { s with notification_server := s.notification_server.map f }

/-- The externally registered callbacks (`_set_option_callback`,
`_query_option_callback`, `_control_callback`), all optional.  A
callback that can throw returns `Except String`; the control callback
returns the (possibly mutated) reply together with either its handled?
boolean or the error it threw. -/
structure Callbacks where
  set_option_callback : Option (OptionObj → Int → Except String Unit)
  query_option_callback : Option (OptionObj → Except String Int)
  control_callback : Option (String → J → J → J × Except String Bool)

/-- Provenance of a control sample: writer guid and sequence number. -/
structure Sample where
  guid : String
  seqno : Int
deriving DecidableEq

/-- The json form of the provenance echoed into every reply. -/
def sample_j (sm : Sample) : J :=
  J.arr [J.str sm.guid, J.num sm.seqno]

/-- `find_option( option_name, stream_name )`: an empty stream name
searches the device-level options; otherwise the stream is looked up in
the stream map and, when found, its options are searched; an unknown
stream yields not-found. First match by exact name equality wins. -/
def find_option (s : ServerState) (option_name stream_name : String) : Option OptionObj :=
  if stream_name = "" then
    s.options.find? (fun o => o.name == option_name)
  else
    match s.stream_name_to_server.lookup stream_name with
    | some stream => stream.options.find? (fun o => o.name == option_name)
    | none => none

/-- Update the first option with the given name in a list, i.e. writing
through the pointer `find_option` would have returned. -/
def setFirst (opts : List OptionObj) (option_name : String) (v : Int) : List OptionObj :=
  match opts with
  | [] => []
  | o :: rest =>
    if o.name == option_name then { o with value := v } :: rest
    else o :: setFirst rest option_name v

/-- Replace a stream in the stream map, keyed by name. -/
def mapInsert (m : List (String × StreamServer)) (k : String) (v : StreamServer) :
    List (String × StreamServer) :=
  match m with
  | [] => [(k, v)]
  | (k', v') :: rest => if k' = k then (k, v) :: rest else (k', v') :: mapInsert rest k v

/-- `opt->set_value( v )` where `opt` is the option `find_option`
resolved in the given scope: updates the first matching option of the
device-level set (empty stream name) or of the named stream. -/
def set_option_value (s : ServerState) (stream_name option_name : String) (v : Int) :
    ServerState :=
  if stream_name = "" then
    { s with options := setFirst s.options option_name v }
  else
    match s.stream_name_to_server.lookup stream_name with
    | some stream =>
      let stream' : StreamServer := { stream with options := setFirst stream.options option_name v }
      { s with stream_name_to_server := mapInsert s.stream_name_to_server stream_name stream' }
    | none => s

/-- Character loop of `ros_friendly_topic_name`: every '/' after the
first is replaced by '_'; `n` counts the slashes seen so far. -/
def ros_friendly_chars : Nat → List Char → List Char
  | _, [] => []
  | n, ch :: rest =>
    if ch = '/' then
      if n + 1 > 1 then '_' :: ros_friendly_chars (n + 1) rest
      else ch :: ros_friendly_chars (n + 1) rest
    else ch :: ros_friendly_chars n rest

/-- `ros_friendly_topic_name`: replaces all '/' except the first with
'_' and prepends the ROS "rt/" prefix. -/
def ros_friendly_topic_name (name : String) : String :=
  "rt/" ++ String.mk (ros_friendly_chars 0 name.data)


/-- The json-shape of the intrinsics field of a stream-options message:
an array for a video stream, an accel/gyro object for a motion stream,
and the default (null) json otherwise. -/
def intrinsics_json : StreamKind → J
  | .video intr => J.arr intr
  | .motion accel gyro => J.obj [("accel", accel), ("gyro", gyro)]
  | .other => J.null

/-- The stream-header discovery message built from a stream's
accessors. -/
def mk_stream_header_msg (stream : StreamServer) : DiscoveryMsg :=
  .streamHeader stream.type_string stream.name stream.sensor_name stream.profiles
    stream.default_profile_index stream.metadata_enabled

/-- The stream-options discovery message built from a stream's
accessors. -/
def mk_stream_options_msg (stream : StreamServer) : DiscoveryMsg :=
  .streamOptions stream.name stream.options (intrinsics_json stream.kind)
    stream.recommended_filters

/-- `on_discovery_device_header`: builds the device-header message
(stream count and extrinsics triples) and hands it to the notification
server, then builds the device-options message (the full device-level
option set) and hands it over as well. -/
def on_discovery_device_header (n_streams : Nat) (options : List OptionObj)
    (extr : List (String × String × J)) (notifications : NotificationServer) :
    NotificationServer :=
  let device_header := DiscoveryMsg.deviceHeader n_streams extr
  let notifications := notifications.add_discovery_notification device_header
  let device_options_message := DiscoveryMsg.deviceOptions options
  notifications.add_discovery_notification device_options_message

/-- `on_discovery_stream_header`: builds the stream-header message and
hands it to the notification server, then the stream-options message
(options, kind-specific intrinsics, recommended filters) and hands it
over as well. -/
def on_discovery_stream_header (stream : StreamServer)
    (notifications : NotificationServer) : NotificationServer :=
  let notifications := notifications.add_discovery_notification (mk_stream_header_msg stream)
  notifications.add_discovery_notification (mk_stream_options_msg stream)

/-- The body of one iteration of `init`'s stream loop after a successful
`stream->open` (whose ros-friendly topic name is consumed by the
external transport): register the stream in the map, publish its
discovery pair, and lazily create the metadata writer at the first
metadata-enabled stream. -/
def init_stream_step (s : ServerState) (stream : StreamServer) : ServerState :=
  let s := { s with stream_name_to_server :=
               mapInsert s.stream_name_to_server stream.name stream }
  let s := s.with_ns (on_discovery_stream_header stream)
  if stream.metadata_enabled && ! s.metadata_writer then
    { s with metadata_writer := true }
  else s

/-- The per-stream loop of `init`: open the stream's topic, then run the
iteration body.  An exception from `stream->open` aborts the loop,
leaving the state as mutated so far. -/
def init_stream_loop (s : ServerState) (streams : List StreamServer) :
    ServerState × Option String :=
  match streams with
  | [] => (s, none)
  | stream :: rest =>
    match stream.open_error with
    | some e => (s, some e)
    | none => init_stream_loop (init_stream_step s stream) rest

/-- `dds_device_server::init`: refuses an already-initialized server;
otherwise creates a fresh notification server, clears any stale stream
map, stores the device options, publishes the device header and then
each stream's discovery pair (with lazy metadata-writer creation),
starts the notification server and creates and runs the control reader.
Any exception inside the try block rolls back the notification server,
the stream map and the control reader and is re-thrown: the result is
the final state paired with the error, if any.  The opening steps of the
try block, before the stream loop — create a fresh notification server,
clear any stale stream map (retry support after a failed earlier init),
store the device options, and publish the device-header and
device-options discovery pair — are factored into `init_begin`. -/
def init_begin (s : ServerState) (n_streams : Nat) (options : List OptionObj)
    (extr : List (String × String × J)) : ServerState :=
  let s1 := { s with notification_server := some NotificationServer.fresh,
                     stream_name_to_server := [] }
  let s2 := { s1 with options := options }
  s2.with_ns (on_discovery_device_header n_streams options extr)

def dds_device_server.init (s : ServerState) (streams : List StreamServer)
    (options : List OptionObj) (extr : List (String × String × J)) :
    ServerState × Option String :=
  if s.is_valid then
    (s, some ("device server \x27" ++ s.topic_root ++ "\x27 is already initialized"))
  else
    match init_stream_loop (init_begin s streams.length options extr) streams with
    | (s4, some e) =>
      ({ s4 with notification_server := none, stream_name_to_server := [],
                 control_reader := false },
       some e)
    | (s4, none) =>
      ({ s4.with_ns NotificationServer.run with control_reader := true }, none)

/-- `dds_device_server::broadcast`: errors on a second broadcast, on an
uninitialized server, and on a device-info whose topic root differs from
the server's; otherwise creates the broadcaster. -/
def dds_device_server.broadcast (s : ServerState) (device_info_topic_root : String) :
    ServerState × Option String :=
  if s.broadcaster then (s, some "device server was already broadcast")
  else if s.notification_server.isNone then (s, some "not initialized")
  else if device_info_topic_root ≠ s.topic_root then
    (s, some "device-info topic root does not match")
  else ({ s with broadcaster := true }, none)

/-- `dds_device_server::broadcast_disconnect`: a no-op without a
broadcaster; otherwise announces the disconnect and releases the
broadcaster handle. -/
def dds_device_server.broadcast_disconnect (s : ServerState) : ServerState :=
  if s.broadcaster then { s with broadcaster := false } else s

/-- Outcome of publishing a notification: success, a raised (catchable)
transport error, or a dereference of an absent notification-server
handle — which in the C++ is undefined behavior, not a raised
exception. -/
inductive PubOutcome where
  | ok : ServerState → PubOutcome
  | raised : String → PubOutcome
  | null_deref : PubOutcome

/-- `dds_device_server::publish_notification`: forwards to
`_notification_server->send_notification` with no validity check, so a
server without a notification server dereferences a null handle. -/
def dds_device_server.publish_notification (s : ServerState) (pub_ok : Bool) (n : J) :
    PubOutcome :=
  match s.notification_server with
  | none => .null_deref
  | some ns =>
    match ns.send_notification pub_ok n with
    | .ok ns' => .ok { s with notification_server := some ns' }
    | .error e => .raised e

/-- `dds_device_server::publish_metadata`: raises when no stream with
enabled metadata created the metadata writer; otherwise writes the
message to the metadata topic (an external transport effect). -/
def dds_device_server.publish_metadata (s : ServerState) (_md : J) : Except String Unit :=
  if ! s.metadata_writer then
    .error ("device \x27" ++ s.topic_root ++ "\x27 has no stream with enabled metadata")
  else
    .ok ()

/-- Extraction of the optional `stream-name` field
(`j.nested( stream_name_key ).get_ex( stream_name )`): a present string
value overrides the empty default; anything else leaves it empty. -/
def stream_name_of (j : J) : String :=
  match j.findKey "stream-name" with
  | some (J.str s) => s
  | _ => ""

/-- The scope text used in not-found errors: the literal "device" for an
empty stream name, otherwise the stream name in single quotes. -/
def scope_name (stream_name : String) : String :=
  if stream_name = "" then "device" else "\x27" ++ stream_name ++ "\x27"

/-- `dds_device_server::handle_set_option`: extracts the required
`option-name`, the optional `stream-name` and resolves the option; when
found, extracts the numeric `value`, invokes the external set-option
callback first when registered, and only after it returns updates the
cached option value and records the resulting value in the reply; when
not found, throws an error naming the scope and the option.  The result
is the updated server, the updated reply, and the thrown error when
any. -/
def handle_set_option (s : ServerState) (cbs : Callbacks) (j reply : J) :
    ServerState × J × Option String :=
  match j.findKey "option-name" with
  | some (J.str option_name) =>
    let stream_name := stream_name_of j
    match find_option s option_name stream_name with
    | some opt =>
      match j.findKey "value" with
      | some (J.num value) =>
        let applied : Except String Unit :=
          match cbs.set_option_callback with
          | some f => f opt value
          | none => .ok ()
        match applied with
        | .error e => (s, reply, some e)
        | .ok _ =>
          (set_option_value s stream_name option_name value,
           reply.setKey "value" (J.num value), none)
      | some _ => (s, reply, some "value is not a number")
      | none => (s, reply, some "key \x27value\x27 not found")
    | none =>
      (s, reply, some (scope_name stream_name ++ " option \x27" ++ option_name
        ++ "\x27 not found"))
  | some _ => (s, reply, some "option-name is not a string")
  | none => (s, reply, some "key \x27option-name\x27 not found")

/-- The `query_option` lambda of `handle_query_option`: with an external
query callback the authoritative value comes from the callback and is
written back to the cached option (resynchronization); otherwise the
cached value is returned.  A throwing callback propagates before any
write-back. -/
def query_option (qcb : Option (OptionObj → Except String Int)) (s : ServerState)
    (stream_name : String) (o : OptionObj) : Except String (ServerState × Int) :=
  match qcb with
  | some f =>
    match f o with
    | .ok value => .ok (set_option_value s stream_name o.name value, value)
    | .error e => .error e
  | none => .ok (s, o.value)

/-- The `query_option_j` lambda of `handle_query_option`: a non-string
option name is a hard error (with the offending json rendered into the
message); otherwise the option is resolved and queried, and an
unresolved name throws an error naming the scope and the option. -/
def query_option_j (qcb : Option (OptionObj → Except String Int)) (s : ServerState)
    (stream_name : String) (x : J) : Except String (ServerState × Int) :=
  match x with
  | J.str option_name =>
    match find_option s option_name stream_name with
    | some o => query_option qcb s stream_name o
    | none =>
      .error (scope_name stream_name ++ " option \x27" ++ option_name ++ "\x27 not found")
  | other => .error ("option name should be a string; got " ++ other.render)

/-- The query-all loop of `handle_query_option`'s empty-array branch:
queries each option of the selected scope in order, accumulating
name-to-value fields; a throwing query aborts, keeping the fields
accumulated so far (the C++ fills the reply's `option-values` object in
place). -/
def query_all_loop (qcb : Option (OptionObj → Except String Int)) (stream_name : String) :
    ServerState → List OptionObj → List (String × J) →
    ServerState × List (String × J) × Option String
  | s, [], acc => (s, acc, none)
  | s, o :: rest, acc =>
    match query_option qcb s stream_name o with
    | .ok (s', value) => query_all_loop qcb stream_name s' rest (acc ++ [(o.name, J.num value)])
    | .error e => (s, acc, some e)

/-- The per-name loop of `handle_query_option`'s non-empty-array branch:
resolves and queries each name in order, accumulating the values pushed
onto the reply's `value` array; a throwing query aborts, keeping the
values pushed so far. -/
def query_list_loop (qcb : Option (OptionObj → Except String Int)) (stream_name : String) :
    ServerState → List J → List Int → ServerState × List Int × Option String
  | s, [], vals => (s, vals, none)
  | s, x :: rest, vals =>
    match query_option_j qcb s stream_name x with
    | .ok (s', value) => query_list_loop qcb stream_name s' rest (vals ++ [value])
    | .error e => (s, vals, some e)

/-- The json the `value` reference holds after the pushes of the
non-empty-array branch: `reply[value_key]` starts as null and
`push_back` turns it into an array, so zero successful pushes leave
null. -/
def pushedJ (vals : List Int) : J :=
  match vals with
  | [] => J.null
  | _ => J.arr (vals.map J.num)

/-- `dds_device_server::handle_query_option`: `option-name` may be an
empty array (query every option of the selected scope into an
`option-values` object — an unknown stream yields an empty object, not
an error), a non-empty array (query each name in order into a `value`
array, aborting on the first failure with the values pushed so far left
in the reply), or a single value (query one option into `value`; the
reply is only assigned when the query returns).  The result is the
updated server, the updated reply, and the thrown error when any. -/
def handle_query_option (s : ServerState) (cbs : Callbacks) (j reply : J) :
    ServerState × J × Option String :=
  let stream_name := stream_name_of j
  match j.findD "option-name" J.null with
  | J.arr elems =>
    if elems.isEmpty then
      let scope_opts : List OptionObj :=
        if stream_name = "" then s.options
        else
          match s.stream_name_to_server.lookup stream_name with
          | some stream => stream.options
          | none => []
      match query_all_loop cbs.query_option_callback stream_name s scope_opts [] with
      | (s', acc, err) => (s', reply.setKey "option-values" (J.obj acc), err)
    else
      match query_list_loop cbs.query_option_callback stream_name s elems [] with
      | (s', vals, err) => (s', reply.setKey "value" (pushedJ vals), err)
  | single =>
    match query_option_j cbs.query_option_callback s stream_name single with
    | .ok (s', value) => (s', reply.setKey "value" (J.num value), none)
    | .error e => (s, reply, some e)

/-- `dds_device_server::handle_control_message`: dispatches on the id —
`set-option` and `query-option` go to their handlers; any other id goes
to the external control callback when registered, and "invalid control"
is thrown when there is no callback or it declines. -/
def handle_control_message (s : ServerState) (cbs : Callbacks) (id : String) (j reply : J) :
    ServerState × J × Option String :=
  if id = "set-option" then handle_set_option s cbs j reply
  else if id = "query-option" then handle_query_option s cbs j reply
  else
    match cbs.control_callback with
    | none => (s, reply, some "invalid control")
    | some f =>
      match f id j reply with
      | (reply', .ok true) => (s, reply', none)
      | (reply', .ok false) => (s, reply', some "invalid control")
      | (reply', .error e) => (s, reply', some e)

/-- The try block of a dispatcher task: extract the required `id` (a
missing or non-string id throws), copy `id` and the original control
payload into the reply, and dispatch to the handler. -/
def control_try (s : ServerState) (cbs : Callbacks) (j reply : J) :
    ServerState × J × Option String :=
  match j.findKey "id" with
  | some (J.str id) =>
    let reply := (reply.setKey "id" (J.str id)).setKey "control" j
    handle_control_message s cbs id j reply
  | some _ => (s, reply, some "id is not a string")
  | none => (s, reply, some "key \x27id\x27 not found")

/-- Outcome of one dispatcher task: the server state after it, the reply
it built, whether the reply reached the notification channel, and
whether the task crashed (the null dereference of publishing without a
notification server — never a thrown exception). -/
structure TaskResult where
  state : ServerState
  reply : J
  published : Bool
  crashed : Bool

/-- The reply after the task's catch block: unchanged when the try block
succeeded, otherwise augmented with `status: error` and the explanation
text of the caught exception. -/
def caught_reply (r : J) : Option String → J
  | none => r
  | some e => (r.setKey "status" (J.str "error")).setKey "explanation" (J.str e)

/-- One dispatcher task of `on_control_message_received`: builds the
reply shell with the provenance token, runs the try block, converts a
caught error into `status: error` plus `explanation`, and publishes the
reply, logging and swallowing a publish failure. -/
def run_task (s : ServerState) (cbs : Callbacks) (pub_ok : Bool) (j : J) (sm : Sample) :
    TaskResult :=
  match control_try s cbs j (J.obj [("sample", sample_j sm)]) with
  | (s1, r1, err) =>
    match dds_device_server.publish_notification s1 pub_ok (caught_reply r1 err) with
    | .ok s2 => { state := s2, reply := caught_reply r1 err, published := true, crashed := false }
    | .raised _ => { state := s1, reply := caught_reply r1 err, published := false, crashed := false }
    | .null_deref => { state := s1, reply := caught_reply r1 err, published := false, crashed := true }

/-- A raw sample taken from the control reader: its structural validity
(`data.is_valid()`), its json payload and its provenance. -/
structure RawMsg where
  valid : Bool
  data : J
  sample : Sample

/-- `dds_device_server::on_control_message_received`: drains all
available control messages, discards invalid ones, and enqueues one
dispatcher task per valid message, in arrival order. -/
def on_control_message_received (msgs : List RawMsg) : List (J × Sample) :=
  (msgs.filter (fun m => m.valid)).map (fun m => (m.data, m.sample))

/-- Outcome of draining the dispatcher queue: final state, the replies
produced in execution order, and whether some task crashed (aborting the
run). -/
structure DispatchOut where
  state : ServerState
  replies : List J
  crashed : Bool

/-- Modelled from the spec: the control dispatcher (`rsutils`
`dispatcher`, not part of the sources under verification) is a bounded
FIFO queue whose single consumer thread executes tasks strictly in
enqueue order, one at a time; we model a drain of the queue as the
left-to-right execution of the queued tasks, threading the server
state. -/
def dispatcher_run (cbs : Callbacks) (pub_ok : Bool) :
    ServerState → List (J × Sample) → DispatchOut
  | s, [] => { state := s, replies := [], crashed := false }
  | s, (j, sm) :: rest =>
    let res := run_task s cbs pub_ok j sm
    if res.crashed then { state := res.state, replies := [res.reply], crashed := true }
    else
      let out := dispatcher_run cbs pub_ok res.state rest
      { state := out.state, replies := res.reply :: out.replies, crashed := out.crashed }

/-- Whether a json value is an object. -/
def J.isObj : J → Bool
  | .obj _ => true
  | _ => false

/-- The value a cache-local query (no external query callback) returns
for a named option: the cached value of the resolved option. -/
def queried_value (s : ServerState) (option_name stream_name : String) : Int :=
  match find_option s option_name stream_name with
  | some o => o.value
  | none => 0

/-- A device-level option used in concrete scenarios. -/
def optGain : OptionObj := { name := "gain", value := 50 }

/-- A stream-level option used in concrete scenarios. -/
def optExposure : OptionObj := { name := "exposure", value := 100 }

/-- A video stream that opens successfully. -/
def streamColor : StreamServer :=
  { name := "color", sensor_name := "RGB Camera", type_string := "video",
    profiles := [J.null], default_profile_index := 0, metadata_enabled := false,
    options := [optExposure], kind := .video [], recommended_filters := [],
    open_error := none }

/-- A metadata-enabled stream that opens successfully. -/
def streamDepth : StreamServer :=
  { name := "depth", sensor_name := "Stereo Module", type_string := "depth",
    profiles := [J.null], default_profile_index := 0, metadata_enabled := true,
    options := [], kind := .other, recommended_filters := [],
    open_error := none }

/-- A stream whose `open` throws, the fault injected into `init`. -/
def streamBroken : StreamServer :=
  { name := "infrared", sensor_name := "Stereo Module", type_string := "ir",
    profiles := [], default_profile_index := 0, metadata_enabled := false,
    options := [], kind := .other, recommended_filters := [],
    open_error := some "no profiles" }

/-- A freshly constructed, never-initialized device server. -/
def freshServer : ServerState :=
  { topic_root := "realdds/device", options := [], stream_name_to_server := [],
    notification_server := none, control_reader := false, metadata_writer := false,
    broadcaster := false }

/-- An initialized device server with one device-level option and one
registered stream. -/
def runningServer : ServerState :=
  { topic_root := "realdds/device", options := [optGain],
    stream_name_to_server := [("color", streamColor)],
    notification_server := some { discovery := [], sent := [], running := true },
    control_reader := true, metadata_writer := false, broadcaster := false }

/-- An initialized device server that has broadcast. -/
def bcastServer : ServerState :=
  { runningServer with broadcaster := true }

/-- No external callbacks registered. -/
def cbsNone : Callbacks :=
  { set_option_callback := none, query_option_callback := none, control_callback := none }

/-- An external set-option callback that fails on negative values. -/
def setCbFail : OptionObj → Int → Except String Unit :=
  fun _ v => if v < 0 then .error "apply failed" else .ok ()

/-- Callbacks with only the set-option callback registered. -/
def cbsSet : Callbacks :=
  { set_option_callback := some setCbFail, query_option_callback := none,
    control_callback := none }

/-- A provenance token used in concrete scenarios. -/
def sample0 : Sample := { guid := "010f9a5f.64d95fd3.303", seqno := 1 }

/-- A second provenance token. -/
def sample1 : Sample := { guid := "010f9a5f.64d95fd3.303", seqno := 2 }

/-- A set-option control request on the device-level option "gain". -/
def sreq_gain : J :=
  J.obj [("id", J.str "set-option"), ("option-name", J.str "gain"), ("value", J.num 150)]

/-- A set-option control request on an unknown option of stream
"color". -/
def sreq_unknown : J :=
  J.obj [("id", J.str "set-option"), ("option-name", J.str "bogus"),
         ("stream-name", J.str "color")]

/-- A query-option control request for the array ["gain","bogus"] whose
second name does not resolve. -/
def qreq_ab : J :=
  J.obj [("id", J.str "query-option"),
         ("option-name", J.arr [J.str "gain", J.str "bogus"])]

/-- A query-option control request for all device-level options. -/
def qreq_all : J :=
  J.obj [("id", J.str "query-option"), ("option-name", J.arr [])]

/-- A concrete batch of arriving control messages: two valid requests
around one structurally invalid message. -/
def msgs0 : List RawMsg :=
  [{ valid := true, data := sreq_gain, sample := sample0 },
   { valid := false, data := J.null, sample := sample1 },
   { valid := true, data := qreq_all, sample := sample1 }]

theorem lookup_setKeyList_self (kvs : List (String × J)) (k : String) (v : J) :
    (J.setKeyList kvs k v).lookup k = some v := by
  induction kvs with
  | nil => simp [J.setKeyList, List.lookup]
  | cons kv rest ih =>
    obtain ⟨k', v'⟩ := kv
    by_cases h : k' = k
    · subst h
      simp [J.setKeyList, List.lookup]
    · simp only [J.setKeyList, if_neg h, List.lookup]
      have : (k == k') = false := by
        simp [beq_iff_eq]
        exact fun h' => h h'.symm
      simp [this, ih]

theorem lookup_setKeyList_ne (kvs : List (String × J)) (k k' : String) (v : J)
    (h : k ≠ k') :
    (J.setKeyList kvs k v).lookup k' = kvs.lookup k' := by
  induction kvs with
  | nil =>
    simp only [J.setKeyList, List.lookup]
    have : (k' == k) = false := by
      simp [beq_iff_eq]
      exact fun h' => h h'.symm
    simp [this]
  | cons kv rest ih =>
    obtain ⟨k1, v1⟩ := kv
    by_cases h1 : k1 = k
    · subst h1
      have : (k' == k1) = false := by
        simp [beq_iff_eq]
        exact fun h' => h h'.symm
      simp [J.setKeyList, List.lookup, this]
    · simp only [J.setKeyList, if_neg h1, List.lookup]
      by_cases h2 : k' = k1
      · subst h2
        simp
      · have : (k' == k1) = false := by simp [beq_iff_eq, h2]
        simp [this, ih]

theorem J.findKey_setKey_self (j : J) (hj : j.isObj = true) (k : String) (v : J) :
    (j.setKey k v).findKey k = some v := by
  cases j <;> simp_all [J.isObj, J.setKey, J.findKey, lookup_setKeyList_self]

theorem J.findKey_setKey_ne (j : J) (k k' : String) (v : J) (h : k ≠ k') :
    (j.setKey k v).findKey k' = j.findKey k' := by
  cases j with
  | null =>
    simp only [J.setKey, J.findKey, List.lookup]
    have : (k' == k) = false := by
      simp [beq_iff_eq]
      exact fun h' => h h'.symm
    simp [this]
  | obj kvs => simp [J.setKey, J.findKey, lookup_setKeyList_ne kvs k k' v h]
  | str s => simp [J.setKey, J.findKey]
  | num n => simp [J.setKey, J.findKey]
  | arr xs => simp [J.setKey, J.findKey]

theorem J.isObj_setKey (j : J) (hj : j.isObj = true) (k : String) (v : J) :
    (j.setKey k v).isObj = true := by
  cases j <;> simp_all [J.isObj, J.setKey]

theorem find?_setFirst (l : List OptionObj) (option_name : String) (v : Int)
    (o : OptionObj) (h : l.find? (fun x => x.name == option_name) = some o) :
    (setFirst l option_name v).find? (fun x => x.name == option_name) =
      some { o with value := v } := by
  induction l with
  | nil => simp [List.find?] at h
  | cons o' rest ih =>
    by_cases hh : o'.name = option_name
    · rw [List.find?_cons_of_pos _ (by simp [hh])] at h
      injection h with h
      subst h
      simp only [setFirst, if_pos (by simp [hh] : (o'.name == option_name) = true)]
      rw [List.find?_cons_of_pos _ (by simp [hh])]
    · rw [List.find?_cons_of_neg _ (by simp [hh])] at h
      simp only [setFirst, if_neg (by simp [hh] : ¬ (o'.name == option_name) = true)]
      rw [List.find?_cons_of_neg _ (by simp [hh])]
      exact ih h

theorem lookup_mapInsert_self (m : List (String × StreamServer)) (k : String)
    (v : StreamServer) : (mapInsert m k v).lookup k = some v := by
  induction m with
  | nil => simp [mapInsert, List.lookup]
  | cons kv rest ih =>
    obtain ⟨k', v'⟩ := kv
    by_cases h : k' = k
    · subst h
      simp [mapInsert, List.lookup]
    · simp only [mapInsert, if_neg h, List.lookup]
      have : (k == k') = false := by
        simp [beq_iff_eq]
        exact fun h' => h h'.symm
      simp [this, ih]

theorem find_option_set_option_value (s : ServerState) (option_name stream_name : String)
    (v : Int) (opt : OptionObj) (h : find_option s option_name stream_name = some opt) :
    find_option (set_option_value s stream_name option_name v) option_name stream_name =
      some { opt with value := v } := by
  by_cases hs : stream_name = ""
  · subst hs
    simp only [find_option, if_pos rfl] at h ⊢
    simp only [set_option_value, if_pos rfl]
    exact find?_setFirst _ _ _ _ h
  · simp only [find_option, if_neg hs] at h ⊢
    simp only [set_option_value, if_neg hs]
    rcases hl : s.stream_name_to_server.lookup stream_name with _ | stream
    · rw [hl] at h
      exact absurd h (by simp)
    · rw [hl] at h
      simp only [hl]
      simp only [find_option, if_neg hs, lookup_mapInsert_self]
      exact find?_setFirst _ _ _ _ h

theorem set_option_value_ns (s : ServerState) (stream_name option_name : String) (v : Int) :
    (set_option_value s stream_name option_name v).notification_server =
      s.notification_server := by
  unfold set_option_value
  split
  · rfl
  · split <;> rfl

theorem query_option_ns (qcb : Option (OptionObj → Except String Int)) (s : ServerState)
    (stream_name : String) (o : OptionObj) (s' : ServerState) (v : Int)
    (h : query_option qcb s stream_name o = .ok (s', v)) :
    s'.notification_server = s.notification_server := by
  rcases qcb with _ | f
  · simp only [query_option] at h
    injection h with h
    injection h with h1 h2
    rw [← h1]
  · simp only [query_option] at h
    rcases hf : f o with e | v'
    · rw [hf] at h
      exact absurd h (by simp)
    · rw [hf] at h
      injection h with h
      injection h with h1 h2
      rw [← h1, set_option_value_ns]

theorem query_option_j_ns (qcb : Option (OptionObj → Except String Int)) (s : ServerState)
    (stream_name : String) (x : J) (s' : ServerState) (v : Int)
    (h : query_option_j qcb s stream_name x = .ok (s', v)) :
    s'.notification_server = s.notification_server := by
  rcases x with _ | name | n | xs | kvs
  case str =>
    simp only [query_option_j] at h
    rcases hf : find_option s name stream_name with _ | o
    · rw [hf] at h
      exact absurd h (by simp)
    · rw [hf] at h
      exact query_option_ns qcb s stream_name o s' v h
  all_goals simp only [query_option_j] at h
  all_goals exact absurd h (by simp)

theorem query_list_loop_ns (qcb : Option (OptionObj → Except String Int))
    (stream_name : String) (xs : List J) : ∀ (s : ServerState) (vals : List Int),
    (query_list_loop qcb stream_name s xs vals).1.notification_server =
      s.notification_server := by
  induction xs with
  | nil => intro s vals; rfl
  | cons x rest ih =>
    intro s vals
    unfold query_list_loop
    rcases hq : query_option_j qcb s stream_name x with e | ⟨s', v⟩
    · simp only [hq]
    · simp only [hq]
      rw [ih s' (vals ++ [v]), query_option_j_ns qcb s stream_name x s' v hq]

theorem query_all_loop_ns (qcb : Option (OptionObj → Except String Int))
    (stream_name : String) (opts : List OptionObj) :
    ∀ (s : ServerState) (acc : List (String × J)),
    (query_all_loop qcb stream_name s opts acc).1.notification_server =
      s.notification_server := by
  induction opts with
  | nil => intro s acc; rfl
  | cons o rest ih =>
    intro s acc
    unfold query_all_loop
    rcases hq : query_option qcb s stream_name o with e | ⟨s', v⟩
    · simp only [hq]
    · simp only [hq]
      rw [ih s' (acc ++ [(o.name, J.num v)]), query_option_ns qcb s stream_name o s' v hq]

theorem handle_set_option_ns (s : ServerState) (cbs : Callbacks) (j reply : J) :
    (handle_set_option s cbs j reply).1.notification_server = s.notification_server := by
  rcases hk : j.findKey "option-name" with _ | (_ | option_name | n | xs | kvs) <;>
    simp only [handle_set_option, hk]
  rcases ho : find_option s option_name (stream_name_of j) with _ | opt <;> simp only [ho]
  rcases hv : j.findKey "value" with _ | (_ | vs | value | vxs | vkvs) <;> simp only [hv]
  rcases hc : cbs.set_option_callback with _ | f <;> simp only [hc]
  · exact set_option_value_ns s (stream_name_of j) option_name value
  rcases hf : f opt value with e | u <;> simp only [hf]
  exact set_option_value_ns s (stream_name_of j) option_name value

theorem single_query_branch_ns (qcb : Option (OptionObj → Except String Int))
    (s : ServerState) (stream_name : String) (x reply : J) :
    ((match query_option_j qcb s stream_name x with
      | .ok (s', value) => (s', reply.setKey "value" (J.num value), none)
      | .error e => (s, reply, some e) :
      ServerState × J × Option String)).1.notification_server = s.notification_server := by
  rcases hq : query_option_j qcb s stream_name x with e | ⟨s', v⟩ <;> simp only [hq]
  exact query_option_j_ns qcb s stream_name x s' v hq

theorem handle_query_option_ns (s : ServerState) (cbs : Callbacks) (j reply : J) :
    (handle_query_option s cbs j reply).1.notification_server = s.notification_server := by
  rcases hk : j.findD "option-name" J.null with _ | name | n | elems | kvs <;>
    simp only [handle_query_option, hk]
  case arr =>
    by_cases he : elems.isEmpty <;> simp only [he, if_true, if_false]
    · rcases hq : query_all_loop cbs.query_option_callback (stream_name_of j) s
          (if stream_name_of j = "" then s.options
           else
             match s.stream_name_to_server.lookup (stream_name_of j) with
             | some stream => stream.options
             | none => []) [] with ⟨s', acc, err⟩
      have h2 := query_all_loop_ns cbs.query_option_callback (stream_name_of j)
        (if stream_name_of j = "" then s.options
         else
           match s.stream_name_to_server.lookup (stream_name_of j) with
           | some stream => stream.options
           | none => []) s []
      rw [hq] at h2
      simp only [hq]
      exact h2
    · rcases hq : query_list_loop cbs.query_option_callback (stream_name_of j) s elems []
        with ⟨s', vals, err⟩
      have h2 := query_list_loop_ns cbs.query_option_callback (stream_name_of j) elems s []
      rw [hq] at h2
      simp only [hq]
      exact h2
  case null => exact single_query_branch_ns cbs.query_option_callback s (stream_name_of j) J.null reply
  case str => exact single_query_branch_ns cbs.query_option_callback s (stream_name_of j) (J.str name) reply
  case num => exact single_query_branch_ns cbs.query_option_callback s (stream_name_of j) (J.num n) reply
  case obj => exact single_query_branch_ns cbs.query_option_callback s (stream_name_of j) (J.obj kvs) reply

theorem handle_control_message_ns (s : ServerState) (cbs : Callbacks) (id : String)
    (j reply : J) :
    (handle_control_message s cbs id j reply).1.notification_server =
      s.notification_server := by
  by_cases h1 : id = "set-option"
  · simp only [handle_control_message, h1, if_true]
    exact handle_set_option_ns s cbs j reply
  by_cases h2 : id = "query-option"
  · simp only [handle_control_message, h1, h2, if_true, if_false]
    exact handle_query_option_ns s cbs j reply
  simp only [handle_control_message, h1, h2, if_false]
  rcases hc : cbs.control_callback with _ | f <;> simp only [hc]
  rcases hf : f id j reply with ⟨r', e | b⟩
  · rfl
  · cases b <;> rfl

theorem control_try_ns (s : ServerState) (cbs : Callbacks) (j reply : J) :
    (control_try s cbs j reply).1.notification_server = s.notification_server := by
  rcases hk : j.findKey "id" with _ | (_ | id | n | xs | kvs) <;> simp only [control_try, hk]
  case some.str => exact handle_control_message_ns s cbs id j _

theorem run_task_ok (s : ServerState) (cbs : Callbacks) (pub_ok : Bool) (j : J) (sm : Sample)
    (hns : s.notification_server.isSome = true) :
    (run_task s cbs pub_ok j sm).crashed = false ∧
    (run_task s cbs pub_ok j sm).state.notification_server.isSome = true := by
  rcases hct : control_try s cbs j (J.obj [("sample", sample_j sm)]) with ⟨s1, r1, err⟩
  have hns1 : s1.notification_server = s.notification_server := by
    have h := control_try_ns s cbs j (J.obj [("sample", sample_j sm)])
    rw [hct] at h
    exact h
  rcases hsome : s.notification_server with _ | ns
  · rw [hsome] at hns
    simp at hns
  simp only [run_task, hct, dds_device_server.publish_notification, hns1, hsome,
    NotificationServer.send_notification]
  cases pub_ok <;> simp [hns1, hsome]

theorem handle_set_option_reply_key (s : ServerState) (cbs : Callbacks) (j reply : J)
    (k : String) (hk : k ≠ "value") :
    (handle_set_option s cbs j reply).2.1.findKey k = reply.findKey k := by
  rcases hok : j.findKey "option-name" with _ | (_ | option_name | n | xs | kvs) <;>
    simp only [handle_set_option, hok] <;> try rfl
  rcases ho : find_option s option_name (stream_name_of j) with _ | opt <;>
    simp only [ho] <;> try rfl
  rcases hv : j.findKey "value" with _ | (_ | vs | value | vxs | vkvs) <;>
    simp only [hv] <;> try rfl
  rcases hc : cbs.set_option_callback with _ | f <;> simp only [hc]
  · exact J.findKey_setKey_ne reply "value" k (J.num value) (Ne.symm hk)
  rcases hf : f opt value with e | u
  · rfl
  · exact J.findKey_setKey_ne reply "value" k (J.num value) (Ne.symm hk)

theorem single_query_branch_reply_key (qcb : Option (OptionObj → Except String Int))
    (s : ServerState) (stream_name : String) (x reply : J) (k : String) (hk : k ≠ "value") :
    ((match query_option_j qcb s stream_name x with
      | .ok (s', value) => (s', reply.setKey "value" (J.num value), none)
      | .error e => (s, reply, some e) :
      ServerState × J × Option String)).2.1.findKey k = reply.findKey k := by
  rcases hq : query_option_j qcb s stream_name x with e | ⟨s', v⟩ <;> simp only [hq]
  exact J.findKey_setKey_ne reply "value" k (J.num v) (Ne.symm hk)

theorem handle_query_option_reply_key (s : ServerState) (cbs : Callbacks) (j reply : J)
    (k : String) (hk1 : k ≠ "value") (hk2 : k ≠ "option-values") :
    (handle_query_option s cbs j reply).2.1.findKey k = reply.findKey k := by
  rcases hko : j.findD "option-name" J.null with _ | name | n | elems | kvs <;>
    simp only [handle_query_option, hko]
  case arr =>
    by_cases he : elems.isEmpty <;> simp only [he, if_true, if_false]
    · rcases hq : query_all_loop cbs.query_option_callback (stream_name_of j) s
          (if stream_name_of j = "" then s.options
           else
             match s.stream_name_to_server.lookup (stream_name_of j) with
             | some stream => stream.options
             | none => []) [] with ⟨s', acc, err⟩
      simp only [hq]
      exact J.findKey_setKey_ne reply "option-values" k (J.obj acc) (Ne.symm hk2)
    · rcases hq : query_list_loop cbs.query_option_callback (stream_name_of j) s elems []
        with ⟨s', vals, err⟩
      simp only [hq]
      exact J.findKey_setKey_ne reply "value" k (pushedJ vals) (Ne.symm hk1)
  case null =>
    exact single_query_branch_reply_key cbs.query_option_callback s (stream_name_of j)
      J.null reply k hk1
  case str =>
    exact single_query_branch_reply_key cbs.query_option_callback s (stream_name_of j)
      (J.str name) reply k hk1
  case num =>
    exact single_query_branch_reply_key cbs.query_option_callback s (stream_name_of j)
      (J.num n) reply k hk1
  case obj =>
    exact single_query_branch_reply_key cbs.query_option_callback s (stream_name_of j)
      (J.obj kvs) reply k hk1

theorem handle_control_message_reply_key (s : ServerState) (cbs : Callbacks) (id : String)
    (j reply : J) (k : String) (hctrl : cbs.control_callback = none)
    (hk1 : k ≠ "value") (hk2 : k ≠ "option-values") :
    (handle_control_message s cbs id j reply).2.1.findKey k = reply.findKey k := by
  by_cases h1 : id = "set-option"
  · simp only [handle_control_message, h1, if_true]
    exact handle_set_option_reply_key s cbs j reply k hk1
  by_cases h2 : id = "query-option"
  · simp only [handle_control_message, h1, h2, if_true, if_false]
    exact handle_query_option_reply_key s cbs j reply k hk1 hk2
  simp only [handle_control_message, h1, h2, if_false, hctrl]

theorem control_try_reply_key (s : ServerState) (cbs : Callbacks) (j reply : J)
    (k : String) (hctrl : cbs.control_callback = none)
    (hk1 : k ≠ "value") (hk2 : k ≠ "option-values") (hk3 : k ≠ "id") (hk4 : k ≠ "control") :
    (control_try s cbs j reply).2.1.findKey k = reply.findKey k := by
  rcases hik : j.findKey "id" with _ | (_ | id | n | xs | kvs) <;>
    simp only [control_try, hik] <;> try rfl
  rw [handle_control_message_reply_key s cbs id j _ k hctrl hk1 hk2]
  rw [J.findKey_setKey_ne _ "control" k j (Ne.symm hk4)]
  rw [J.findKey_setKey_ne reply "id" k (J.str id) (Ne.symm hk3)]

theorem run_task_reply_sample (s : ServerState) (cbs : Callbacks) (pub_ok : Bool)
    (j : J) (sm : Sample) (hctrl : cbs.control_callback = none) :
    (run_task s cbs pub_ok j sm).reply.findKey "sample" = some (sample_j sm) := by
  rcases hct : control_try s cbs j (J.obj [("sample", sample_j sm)]) with ⟨s1, r1, err⟩
  have hr1 : r1.findKey "sample" = some (sample_j sm) := by
    have h := control_try_reply_key s cbs j (J.obj [("sample", sample_j sm)]) "sample"
      hctrl (by decide) (by decide) (by decide) (by decide)
    rw [hct] at h
    rw [h]
    simp [J.findKey, List.lookup]
  have hr2 : (caught_reply r1 err).findKey "sample" = some (sample_j sm) := by
    rcases err with _ | e
    · exact hr1
    · simp only [caught_reply]
      rw [J.findKey_setKey_ne _ "explanation" "sample" (J.str e) (by decide)]
      rw [J.findKey_setKey_ne _ "status" "sample" (J.str "error") (by decide)]
      exact hr1
  simp only [run_task, hct]
  rcases hp : dds_device_server.publish_notification s1 pub_ok (caught_reply r1 err)
    with s2 | e | _ <;> simp only [hp] <;> exact hr2

theorem handle_set_option_reply_isObj (s : ServerState) (cbs : Callbacks) (j reply : J)
    (h : reply.isObj = true) :
    (handle_set_option s cbs j reply).2.1.isObj = true := by
  rcases hok : j.findKey "option-name" with _ | (_ | option_name | n | xs | kvs) <;>
    simp only [handle_set_option, hok] <;> try exact h
  rcases ho : find_option s option_name (stream_name_of j) with _ | opt <;>
    simp only [ho] <;> try exact h
  rcases hv : j.findKey "value" with _ | (_ | vs | value | vxs | vkvs) <;>
    simp only [hv] <;> try exact h
  rcases hc : cbs.set_option_callback with _ | f <;> simp only [hc]
  · exact J.isObj_setKey reply h "value" (J.num value)
  rcases hf : f opt value with e | u
  · exact h
  · exact J.isObj_setKey reply h "value" (J.num value)

theorem single_query_branch_reply_isObj (qcb : Option (OptionObj → Except String Int))
    (s : ServerState) (stream_name : String) (x reply : J) (h : reply.isObj = true) :
    ((match query_option_j qcb s stream_name x with
      | .ok (s', value) => (s', reply.setKey "value" (J.num value), none)
      | .error e => (s, reply, some e) :
      ServerState × J × Option String)).2.1.isObj = true := by
  rcases hq : query_option_j qcb s stream_name x with e | ⟨s', v⟩ <;> simp only [hq]
  · exact h
  · exact J.isObj_setKey reply h "value" (J.num v)

theorem handle_query_option_reply_isObj (s : ServerState) (cbs : Callbacks) (j reply : J)
    (h : reply.isObj = true) :
    (handle_query_option s cbs j reply).2.1.isObj = true := by
  rcases hko : j.findD "option-name" J.null with _ | name | n | elems | kvs <;>
    simp only [handle_query_option, hko]
  case arr =>
    by_cases he : elems.isEmpty <;> simp only [he, if_true, if_false]
    · rcases hq : query_all_loop cbs.query_option_callback (stream_name_of j) s
          (if stream_name_of j = "" then s.options
           else
             match s.stream_name_to_server.lookup (stream_name_of j) with
             | some stream => stream.options
             | none => []) [] with ⟨s', acc, err⟩
      simp only [hq]
      exact J.isObj_setKey reply h "option-values" (J.obj acc)
    · rcases hq : query_list_loop cbs.query_option_callback (stream_name_of j) s elems []
        with ⟨s', vals, err⟩
      simp only [hq]
      exact J.isObj_setKey reply h "value" (pushedJ vals)
  case null =>
    exact single_query_branch_reply_isObj cbs.query_option_callback s (stream_name_of j)
      J.null reply h
  case str =>
    exact single_query_branch_reply_isObj cbs.query_option_callback s (stream_name_of j)
      (J.str name) reply h
  case num =>
    exact single_query_branch_reply_isObj cbs.query_option_callback s (stream_name_of j)
      (J.num n) reply h
  case obj =>
    exact single_query_branch_reply_isObj cbs.query_option_callback s (stream_name_of j)
      (J.obj kvs) reply h

theorem handle_control_message_reply_isObj (s : ServerState) (cbs : Callbacks) (id : String)
    (j reply : J)
    (hobj : ∀ g, cbs.control_callback = some g → ∀ a b c, ((g a b c).1.isObj = true))
    (h : reply.isObj = true) :
    (handle_control_message s cbs id j reply).2.1.isObj = true := by
  by_cases h1 : id = "set-option"
  · simp only [handle_control_message, h1, if_true]
    exact handle_set_option_reply_isObj s cbs j reply h
  by_cases h2 : id = "query-option"
  · simp only [handle_control_message, h1, h2, if_true, if_false]
    exact handle_query_option_reply_isObj s cbs j reply h
  rcases hc : cbs.control_callback with _ | f <;>
    simp only [handle_control_message, h1, h2, if_false, hc]
  · exact h
  rcases hf : f id j reply with ⟨r', e | b⟩
  · have hg := hobj f hc id j reply
    rw [hf] at hg
    exact hg
  · have hg := hobj f hc id j reply
    rw [hf] at hg
    cases b <;> exact hg

theorem control_try_reply_isObj (s : ServerState) (cbs : Callbacks) (j reply : J)
    (hobj : ∀ g, cbs.control_callback = some g → ∀ a b c, ((g a b c).1.isObj = true))
    (h : reply.isObj = true) :
    (control_try s cbs j reply).2.1.isObj = true := by
  rcases hik : j.findKey "id" with _ | (_ | id | n | xs | kvs) <;>
    simp only [control_try, hik] <;> try exact h
  exact handle_control_message_reply_isObj s cbs id j _ hobj
    (J.isObj_setKey _ (J.isObj_setKey reply h "id" (J.str id)) "control" j)

theorem query_all_loop_none_cache (stream_name : String) (opts : List OptionObj) :
    ∀ (s : ServerState) (acc : List (String × J)),
    query_all_loop none stream_name s opts acc =
      (s, acc ++ opts.map (fun o => (o.name, J.num o.value)), none) := by
  induction opts with
  | nil => intro s acc; simp [query_all_loop]
  | cons o rest ih =>
    intro s acc
    simp only [query_all_loop, query_option]
    rw [ih]
    simp

theorem query_list_loop_none_found (stream_name : String) (names : List String) :
    ∀ (s : ServerState) (vals : List Int),
    (∀ n ∈ names, (find_option s n stream_name).isSome = true) →
    query_list_loop none stream_name s (names.map J.str) vals =
      (s, vals ++ names.map (fun n => queried_value s n stream_name), none) := by
  induction names with
  | nil => intro s vals _; simp [query_list_loop]
  | cons n rest ih =>
    intro s vals h
    have hn := h n (List.mem_cons_self n rest)
    rcases ho : find_option s n stream_name with _ | o
    · rw [ho] at hn
      simp at hn
    simp only [List.map_cons, query_list_loop, query_option_j, ho, query_option]
    rw [ih s (vals ++ [o.value]) (fun m hm => h m (List.mem_cons_of_mem n hm))]
    simp [queried_value, ho]

theorem query_list_loop_none_fails (stream_name : String) (bad : String) (rest : List J)
    (good : List String) :
    ∀ (s : ServerState) (vals : List Int),
    (∀ n ∈ good, (find_option s n stream_name).isSome = true) →
    find_option s bad stream_name = none →
    query_list_loop none stream_name s (good.map J.str ++ J.str bad :: rest) vals =
      (s, vals ++ good.map (fun n => queried_value s n stream_name),
       some (scope_name stream_name ++ " option \x27" ++ bad ++ "\x27 not found")) := by
  induction good with
  | nil =>
    intro s vals _ hbad
    simp only [List.map_nil, List.nil_append, query_list_loop, query_option_j, hbad]
    simp
  | cons n grest ih =>
    intro s vals h hbad
    have hn := h n (List.mem_cons_self n grest)
    rcases ho : find_option s n stream_name with _ | o
    · rw [ho] at hn
      simp at hn
    simp only [List.map_cons, List.cons_append, query_list_loop, query_option_j, ho,
      query_option, List.append_eq]
    rw [ih s (vals ++ [o.value]) (fun m hm => h m (List.mem_cons_of_mem n hm)) hbad]
    simp [queried_value, ho]

theorem init_stream_step_ns (s : ServerState) (stream : StreamServer) :
    (init_stream_step s stream).notification_server =
      s.notification_server.map (on_discovery_stream_header stream) := by
  simp only [init_stream_step]
  split <;> rfl

theorem init_stream_loop_ok (streams : List StreamServer) :
    ∀ s : ServerState, (∀ st ∈ streams, st.open_error = none) →
    (init_stream_loop s streams).2 = none := by
  induction streams with
  | nil => intro s _; rfl
  | cons st rest ih =>
    intro s h
    have hst := h st (List.mem_cons_self st rest)
    simp only [init_stream_loop, hst]
    exact ih _ (fun m hm => h m (List.mem_cons_of_mem st hm))

theorem init_stream_loop_discovery (streams : List StreamServer) :
    ∀ (s : ServerState) (ns : NotificationServer), s.notification_server = some ns →
    (init_stream_loop s streams).1.notification_server =
      some { ns with discovery := ns.discovery ++
        streams.flatMap (fun st => [mk_stream_header_msg st, mk_stream_options_msg st]) } ∨
    (init_stream_loop s streams).2.isSome = true := by
  induction streams with
  | nil =>
    intro s ns h
    left
    simp [init_stream_loop, h]
  | cons st rest ih =>
    intro s ns h
    rcases he : st.open_error with _ | e
    · simp only [init_stream_loop, he]
      have hns2 : (init_stream_step s st).notification_server =
          some (on_discovery_stream_header st ns) := by
        rw [init_stream_step_ns, h]
        rfl
      rcases ih (init_stream_step s st) (on_discovery_stream_header st ns) hns2 with hd | hf
      · left
        rw [hd]
        simp [on_discovery_stream_header, NotificationServer.add_discovery_notification,
          List.append_assoc]
      · right
        exact hf
    · right
      simp [init_stream_loop, he]

theorem init_begin_ns (s : ServerState) (n_streams : Nat) (options : List OptionObj)
    (extr : List (String × String × J)) :
    (init_begin s n_streams options extr).notification_server =
      some { discovery := [DiscoveryMsg.deviceHeader n_streams extr,
                           DiscoveryMsg.deviceOptions options],
             sent := [], running := false } := rfl

theorem init_ok (s : ServerState) (streams : List StreamServer)
    (options : List OptionObj) (extr : List (String × String × J))
    (hpre : s.is_valid = false)
    (hopen : ∀ st ∈ streams, st.open_error = none) :
    (dds_device_server.init s streams options extr).2 = none := by
  simp only [dds_device_server.init, hpre, Bool.false_eq_true, if_false]
  rcases hl : init_stream_loop (init_begin s streams.length options extr) streams
    with ⟨s4, _ | e⟩
  · rfl
  · have h := init_stream_loop_ok streams (init_begin s streams.length options extr) hopen
    rw [hl] at h
    exact absurd h (by simp)

theorem dispatcher_run_spec (cbs : Callbacks) (pub_ok : Bool)
    (hctrl : cbs.control_callback = none) (tasks : List (J × Sample)) :
    ∀ s : ServerState, s.notification_server.isSome = true →
    (dispatcher_run cbs pub_ok s tasks).crashed = false ∧
    (dispatcher_run cbs pub_ok s tasks).state.notification_server.isSome = true ∧
    (dispatcher_run cbs pub_ok s tasks).replies.map (fun r => r.findKey "sample") =
      tasks.map (fun t => some (sample_j t.2)) := by
  induction tasks with
  | nil => intro s h; exact ⟨rfl, h, rfl⟩
  | cons t rest ih =>
    obtain ⟨j, sm⟩ := t
    intro s h
    obtain ⟨hc, hsns⟩ := run_task_ok s cbs pub_ok j sm h
    obtain ⟨ih1, ih2, ih3⟩ := ih (run_task s cbs pub_ok j sm).state hsns
    simp only [dispatcher_run, hc, Bool.false_eq_true, if_false]
    refine ⟨ih1, ih2, ?_⟩
    simp only [List.map_cons, ih3, run_task_reply_sample s cbs pub_ok j sm hctrl]

/-- C1, counterexample: a failed `init` does NOT roll back everything
written during the attempt.  On a fresh server, initializing with a
metadata-enabled stream followed by a stream whose open throws leaves
the stored device options and the metadata writer in place (the catch
block only resets the notification server, the stream map and the
control reader), so the post-failure state is not the pre-init state. -/
theorem C1_counterexample :
    (dds_device_server.init freshServer [streamDepth, streamBroken] [optGain] []).2 =
      some "no profiles" ∧
    (dds_device_server.init freshServer [streamDepth, streamBroken] [optGain]
      []).1.metadata_writer = true ∧
    (dds_device_server.init freshServer [streamDepth, streamBroken] [optGain]
      []).1.options = [optGain] ∧
    freshServer.metadata_writer = false ∧ freshServer.options = [] :=
  ⟨rfl, rfl, rfl, rfl, rfl⟩

/-- C1 (amended): if any exception is thrown during the try block of
`init` on a not-yet-initialized server, the notification channel, the
stream-name-to-server map and the control reader are reset to
empty/absent, the exception is re-thrown, and a subsequent `init` with
valid inputs succeeds; however the stored device options and the
metadata channel handle written during the failed init are NOT reset
and survive the failure. -/
theorem C1_init_rollback (s : ServerState) (streams : List StreamServer)
    (options : List OptionObj) (extr : List (String × String × J))
    (hpre : s.is_valid = false)
    (hfail : (dds_device_server.init s streams options extr).2.isSome = true) :
    (dds_device_server.init s streams options extr).1.notification_server = none ∧
    (dds_device_server.init s streams options extr).1.stream_name_to_server = [] ∧
    (dds_device_server.init s streams options extr).1.control_reader = false ∧
    (∀ (streams2 : List StreamServer) (options2 : List OptionObj)
       (extr2 : List (String × String × J)),
       (∀ st ∈ streams2, st.open_error = none) →
       (dds_device_server.init (dds_device_server.init s streams options extr).1
          streams2 options2 extr2).2 = none) := by
  simp only [dds_device_server.init, hpre, Bool.false_eq_true, if_false] at hfail ⊢
  rcases hl : init_stream_loop (init_begin s streams.length options extr) streams
    with ⟨s4, _ | e⟩
  · rw [hl] at hfail
    simp at hfail
  · refine ⟨rfl, rfl, rfl, ?_⟩
    intro streams2 options2 extr2 hopen
    exact init_ok _ streams2 options2 extr2 rfl hopen

/-- C1, witness: the amended rollback property at the concrete failing
init of the counterexample. -/
theorem C1_init_rollback_witness :
    (dds_device_server.init freshServer [streamDepth, streamBroken] [optGain]
      []).1.notification_server = none ∧
    (dds_device_server.init freshServer [streamDepth, streamBroken] [optGain]
      []).1.stream_name_to_server = [] ∧
    (dds_device_server.init freshServer [streamDepth, streamBroken] [optGain]
      []).1.control_reader = false ∧
    (∀ (streams2 : List StreamServer) (options2 : List OptionObj)
       (extr2 : List (String × String × J)),
       (∀ st ∈ streams2, st.open_error = none) →
       (dds_device_server.init
          (dds_device_server.init freshServer [streamDepth, streamBroken] [optGain] []).1
          streams2 options2 extr2).2 = none) :=
  C1_init_rollback freshServer [streamDepth, streamBroken] [optGain] [] rfl rfl

/-- C2 (confirmed): for every successful `init` on a not-yet-initialized
server, the discovery notifications handed to the (fresh) notification
channel are exactly: one device-header (stream count and extrinsics),
one device-options message (the full device-level option set), then for
each stream in registration order one stream-header followed by one
stream-options message; each is handed over immediately after
construction, so the cached log equals this sequence and nothing else
was sent. -/
theorem C2_discovery_sequence (s : ServerState) (streams : List StreamServer)
    (options : List OptionObj) (extr : List (String × String × J))
    (hpre : s.is_valid = false)
    (hok : (dds_device_server.init s streams options extr).2 = none) :
    (dds_device_server.init s streams options extr).1.notification_server =
      some { discovery := DiscoveryMsg.deviceHeader streams.length extr ::
               DiscoveryMsg.deviceOptions options ::
               streams.flatMap
                 (fun st => [mk_stream_header_msg st, mk_stream_options_msg st]),
             sent := [], running := true } := by
  simp only [dds_device_server.init, hpre, Bool.false_eq_true, if_false] at hok ⊢
  rcases hl : init_stream_loop (init_begin s streams.length options extr) streams
    with ⟨s4, _ | e⟩
  · rcases init_stream_loop_discovery streams (init_begin s streams.length options extr)
        _ (init_begin_ns s streams.length options extr) with hd | hf
    · rw [hl] at hd
      dsimp only at hd
      show (s4.with_ns NotificationServer.run).notification_server = _
      simp [ServerState.with_ns, hd, NotificationServer.run]
    · rw [hl] at hf
      simp at hf
  · rw [hl] at hok
    simp at hok

/-- C2, witness: the discovery sequence of a concrete successful init
with one stream. -/
theorem C2_discovery_sequence_witness :
    (dds_device_server.init freshServer [streamColor] [optGain] []).1.notification_server =
      some { discovery := DiscoveryMsg.deviceHeader 1 [] ::
               DiscoveryMsg.deviceOptions [optGain] ::
               [streamColor].flatMap
                 (fun st => [mk_stream_header_msg st, mk_stream_options_msg st]),
             sent := [], running := true } :=
  C2_discovery_sequence freshServer [streamColor] [optGain] [] rfl rfl

/-- C3 (confirmed): for a set-option request whose option resolves, the
registered external set-value callback is invoked with the option and
the new value before the cached value is touched; if it throws, the
server state (hence the cached option value) is unchanged and the error
propagates, and if it returns, the cached value is updated to the new
value and the reply carries the resulting `value`. -/
theorem C3_set_option_callback_order (s : ServerState) (cbs : Callbacks)
    (f : OptionObj → Int → Except String Unit) (j reply : J)
    (option_name stream_name : String) (opt : OptionObj) (v : Int)
    (hcb : cbs.set_option_callback = some f)
    (hname : j.findKey "option-name" = some (J.str option_name))
    (hstream : stream_name_of j = stream_name)
    (hopt : find_option s option_name stream_name = some opt)
    (hval : j.findKey "value" = some (J.num v)) :
    (∀ e, f opt v = .error e →
       handle_set_option s cbs j reply = (s, reply, some e)) ∧
    (f opt v = .ok () →
       handle_set_option s cbs j reply =
         (set_option_value s stream_name option_name v,
          reply.setKey "value" (J.num v), none) ∧
       find_option (handle_set_option s cbs j reply).1 option_name stream_name =
         some { opt with value := v }) := by
  subst hstream
  constructor
  · intro e he
    simp only [handle_set_option, hname, hopt, hval, hcb, he]
  · intro hok
    have heq : handle_set_option s cbs j reply =
        (set_option_value s (stream_name_of j) option_name v,
         reply.setKey "value" (J.num v), none) := by
      simp only [handle_set_option, hname, hopt, hval, hcb, hok]
    refine ⟨heq, ?_⟩
    rw [heq]
    exact find_option_set_option_value s option_name (stream_name_of j) v opt hopt

/-- C3, witness: the callback-ordering property at a concrete set-option
request on the device option "gain" with value 150 and the registered
`setCbFail` callback (which succeeds at 150). -/
theorem C3_set_option_callback_order_witness :
    (∀ e, setCbFail optGain 150 = .error e →
       handle_set_option runningServer cbsSet sreq_gain (J.obj []) =
         (runningServer, J.obj [], some e)) ∧
    (setCbFail optGain 150 = .ok () →
       handle_set_option runningServer cbsSet sreq_gain (J.obj []) =
         (set_option_value runningServer "" "gain" 150,
          (J.obj []).setKey "value" (J.num 150), none) ∧
       find_option (handle_set_option runningServer cbsSet sreq_gain (J.obj [])).1
           "gain" "" = some { optGain with value := 150 }) :=
  C3_set_option_callback_order runningServer cbsSet setCbFail sreq_gain (J.obj [])
    "gain" "" optGain 150 rfl rfl rfl rfl rfl

/-- C4, counterexample: a query-option request for ["gain","bogus"] on a
server that only has "gain" produces an error naming "bogus", but the
reply actually sent to the client still carries the partially built
value array [50] under the `value` key (the C++ pushes values into the
reply in place before the failing name throws), refuting "the reply
sent to the client contains no partial array of values". -/
theorem C4_counterexample :
    (run_task runningServer cbsNone true qreq_ab sample0).reply.findKey "value" =
      some (J.arr [J.num 50]) ∧
    (run_task runningServer cbsNone true qreq_ab sample0).reply.findKey "status" =
      some (J.str "error") ∧
    (run_task runningServer cbsNone true qreq_ab sample0).reply.findKey "explanation" =
      some (J.str "device option \x27bogus\x27 not found") ∧
    (run_task runningServer cbsNone true qreq_ab sample0).published = true :=
  ⟨rfl, rfl, rfl, rfl⟩

/-- C4 (amended): for a query-option request whose option-name is a
non-empty array of strings (with cache-local querying, i.e. no external
query callback), if every name resolves the reply's `value` is the array
of queried values in request order; if some name fails to resolve, the
whole call errors with an explanation naming the scope and that option,
no further names are queried and the state is unchanged — but the reply
keeps the partially built `value` array of the names resolved before the
failure (null when the first name already fails). -/
theorem C4_query_array (s : ServerState) (cbs : Callbacks) (j reply : J)
    (stream_name : String) (names good tail : List String) (bad : String)
    (hqcb : cbs.query_option_callback = none)
    (hname : j.findKey "option-name" = some (J.arr (names.map J.str)))
    (hstream : stream_name_of j = stream_name) :
    ((names ≠ [] ∧ ∀ n ∈ names, (find_option s n stream_name).isSome = true) →
       handle_query_option s cbs j reply =
         (s, reply.setKey "value"
            (J.arr (names.map (fun n => J.num (queried_value s n stream_name)))), none)) ∧
    (names = good ++ bad :: tail →
       (∀ n ∈ good, (find_option s n stream_name).isSome = true) →
       find_option s bad stream_name = none →
       handle_query_option s cbs j reply =
         (s, reply.setKey "value"
            (pushedJ (good.map (fun n => queried_value s n stream_name))),
          some (scope_name stream_name ++ " option \x27" ++ bad ++ "\x27 not found"))) := by
  subst hstream
  constructor
  · rintro ⟨hne, hfound⟩
    rcases names with _ | ⟨n0, ns0⟩
    · exact absurd rfl hne
    simp only [handle_query_option, J.findD, hname, Option.getD, hqcb, List.map_cons,
      List.isEmpty_cons, if_false, Bool.false_eq_true]
    rw [show (J.str n0 :: List.map J.str ns0) = (n0 :: ns0).map J.str from rfl]
    rw [query_list_loop_none_found (stream_name_of j) (n0 :: ns0) s [] hfound]
    simp [pushedJ, List.map_map]
    rfl
  · rintro rfl hgood hbad
    simp only [handle_query_option, J.findD, hname, Option.getD, hqcb]
    have hne : ((good ++ bad :: tail).map J.str).isEmpty = false := by simp
    simp only [hne, Bool.false_eq_true, if_false]
    rw [List.map_append, List.map_cons]
    rw [query_list_loop_none_fails (stream_name_of j) bad (tail.map J.str) good s [] hgood hbad]
    simp

/-- C4, witness: the amended array-query property at the concrete
request ["gain","bogus"] of the counterexample, instantiated with
good = ["gain"], bad = "bogus". -/
theorem C4_query_array_witness :
    ((["gain", "bogus"] ≠ ([] : List String) ∧
        ∀ n ∈ ["gain", "bogus"], (find_option runningServer n "").isSome = true) →
       handle_query_option runningServer cbsNone qreq_ab (J.obj []) =
         (runningServer, (J.obj []).setKey "value"
            (J.arr (["gain", "bogus"].map (fun n => J.num (queried_value runningServer n "")))),
          none)) ∧
    ((["gain", "bogus"] : List String) = ["gain"] ++ "bogus" :: [] →
       (∀ n ∈ ["gain"], (find_option runningServer n "").isSome = true) →
       find_option runningServer "bogus" "" = none →
       handle_query_option runningServer cbsNone qreq_ab (J.obj []) =
         (runningServer, (J.obj []).setKey "value"
            (pushedJ (["gain"].map (fun n => queried_value runningServer n ""))),
          some (scope_name "" ++ " option \x27" ++ "bogus" ++ "\x27 not found"))) :=
  C4_query_array runningServer cbsNone qreq_ab (J.obj []) "" ["gain", "bogus"]
    ["gain"] [] "bogus" rfl rfl rfl

/-- C5, counterexample: `publish_notification` on a constructed but
never-initialized server does not raise an error to the caller — it
forwards to the absent notification-server handle with no check,
dereferencing a null pointer (modelled as the `null_deref` outcome,
distinct from a raised, catchable error), refuting the claim that every
server operation used before init raises. -/
theorem C5_counterexample :
    dds_device_server.publish_notification freshServer true (J.str "ping") =
      PubOutcome.null_deref := rfl

/-- C5 (amended): lifecycle misuse raises immediately for: init on an
already-initialized server, broadcast after broadcast, broadcast before
init, broadcast with a mismatched device-info topic root, and
publish_metadata without a metadata channel; `publish_notification`
before init, however, performs no check and dereferences the absent
notification-server handle instead of raising. -/
theorem C5_lifecycle_errors :
    (∀ (s : ServerState) (streams : List StreamServer) (options : List OptionObj)
       (extr : List (String × String × J)), s.is_valid = true →
       dds_device_server.init s streams options extr =
         (s, some ("device server \x27" ++ s.topic_root ++ "\x27 is already initialized"))) ∧
    (∀ (s : ServerState) (root : String), s.broadcaster = true →
       dds_device_server.broadcast s root =
         (s, some "device server was already broadcast")) ∧
    (∀ (s : ServerState) (root : String), s.broadcaster = false →
       s.notification_server = none →
       dds_device_server.broadcast s root = (s, some "not initialized")) ∧
    (∀ (s : ServerState) (root : String), s.broadcaster = false →
       s.notification_server.isSome = true → root ≠ s.topic_root →
       dds_device_server.broadcast s root =
         (s, some "device-info topic root does not match")) ∧
    (∀ (s : ServerState) (pub_ok : Bool) (n : J), s.notification_server = none →
       dds_device_server.publish_notification s pub_ok n = PubOutcome.null_deref) ∧
    (∀ (s : ServerState) (md : J), s.metadata_writer = false →
       dds_device_server.publish_metadata s md =
         .error ("device \x27" ++ s.topic_root ++ "\x27 has no stream with enabled metadata")) := by
  refine ⟨?_, ?_, ?_, ?_, ?_, ?_⟩
  · intro s streams options extr h
    simp [dds_device_server.init, h]
  · intro s root h
    simp [dds_device_server.broadcast, h]
  · intro s root hb hn
    simp [dds_device_server.broadcast, hb, hn]
  · intro s root hb hn hr
    have hn' : s.notification_server.isNone = false := by
      rcases hs : s.notification_server with _ | ns
      · rw [hs] at hn
        simp at hn
      · rfl
    simp [dds_device_server.broadcast, hb, hn', hr]
  · intro s pub_ok n h
    simp [dds_device_server.publish_notification, h]
  · intro s md h
    simp [dds_device_server.publish_metadata, h]

/-- C5, witness: the amended lifecycle-error taxonomy at concrete
servers — double-init on an initialized server, double-broadcast,
broadcast before init, mismatched topic root, the unchecked
publish_notification, and publish_metadata without metadata channel. -/
theorem C5_lifecycle_errors_witness :
    dds_device_server.init runningServer [] [] [] =
      (runningServer,
       some ("device server \x27" ++ runningServer.topic_root ++ "\x27 is already initialized")) ∧
    dds_device_server.broadcast bcastServer "realdds/device" =
      (bcastServer, some "device server was already broadcast") ∧
    dds_device_server.broadcast freshServer "realdds/device" =
      (freshServer, some "not initialized") ∧
    dds_device_server.broadcast runningServer "realdds/other" =
      (runningServer, some "device-info topic root does not match") ∧
    dds_device_server.publish_notification freshServer false (J.null) =
      PubOutcome.null_deref ∧
    dds_device_server.publish_metadata freshServer J.null =
      .error ("device \x27" ++ freshServer.topic_root ++ "\x27 has no stream with enabled metadata") :=
  ⟨C5_lifecycle_errors.1 runningServer [] [] [] rfl,
   C5_lifecycle_errors.2.1 bcastServer "realdds/device" rfl,
   C5_lifecycle_errors.2.2.1 freshServer "realdds/device" rfl rfl,
   C5_lifecycle_errors.2.2.2.1 runningServer "realdds/other" rfl rfl (by decide),
   C5_lifecycle_errors.2.2.2.2.1 freshServer false J.null rfl,
   C5_lifecycle_errors.2.2.2.2.2 freshServer J.null rfl⟩

/-- C6 (confirmed, against the spec-modelled FIFO dispatcher): draining
a batch of arriving control messages enqueues one task per valid
message in arrival order, and the single consumer executes them one at
a time in that order, so the produced reply sequence has exactly one
reply per valid message and the k-th reply carries the provenance token
of the k-th arrival — replies preserve arrival order and no task
crashes. -/
theorem C6_dispatcher_order (s : ServerState) (cbs : Callbacks) (pub_ok : Bool)
    (msgs : List RawMsg)
    (hns : s.notification_server.isSome = true)
    (hctrl : cbs.control_callback = none) :
    (dispatcher_run cbs pub_ok s (on_control_message_received msgs)).crashed = false ∧
    (dispatcher_run cbs pub_ok s (on_control_message_received msgs)).replies.map
        (fun r => r.findKey "sample") =
      (msgs.filter (fun m => m.valid)).map (fun m => some (sample_j m.sample)) := by
  obtain ⟨h1, _, h3⟩ :=
    dispatcher_run_spec cbs pub_ok hctrl (on_control_message_received msgs) s hns
  refine ⟨h1, ?_⟩
  rw [h3]
  simp [on_control_message_received, List.map_map]

/-- C6, witness: the reply-order property on a concrete batch of three
control messages of which the middle one is invalid and discarded. -/
theorem C6_dispatcher_order_witness :
    (dispatcher_run cbsNone true runningServer (on_control_message_received msgs0)).crashed
        = false ∧
    (dispatcher_run cbsNone true runningServer (on_control_message_received msgs0)).replies.map
        (fun r => r.findKey "sample") =
      (msgs0.filter (fun m => m.valid)).map (fun m => some (sample_j m.sample)) :=
  C6_dispatcher_order runningServer cbsNone true msgs0 rfl rfl

/-- C7 (confirmed): a query-option request whose option-name is the
empty array (cache-local querying) replies with `option-values`, a
mapping over every option of the selected scope: all device-level
options when the stream name is empty, the named stream's options when
the stream exists, and an empty mapping — not an error — when the
stream name is unknown. -/
theorem C7_query_all_scope (s : ServerState) (cbs : Callbacks) (j reply : J)
    (stream_name : String)
    (hqcb : cbs.query_option_callback = none)
    (hname : j.findKey "option-name" = some (J.arr []))
    (hstream : stream_name_of j = stream_name) :
    (stream_name = "" →
       handle_query_option s cbs j reply =
         (s, reply.setKey "option-values"
            (J.obj (s.options.map (fun o => (o.name, J.num o.value)))), none)) ∧
    (∀ st, stream_name ≠ "" → s.stream_name_to_server.lookup stream_name = some st →
       handle_query_option s cbs j reply =
         (s, reply.setKey "option-values"
            (J.obj (st.options.map (fun o => (o.name, J.num o.value)))), none)) ∧
    (stream_name ≠ "" → s.stream_name_to_server.lookup stream_name = none →
       handle_query_option s cbs j reply =
         (s, reply.setKey "option-values" (J.obj []), none)) := by
  subst hstream
  refine ⟨?_, ?_, ?_⟩
  · intro hdev
    simp only [handle_query_option, J.findD, hname, Option.getD, hqcb, List.isEmpty_nil,
      if_true, hdev]
    rw [query_all_loop_none_cache]
    simp
  · intro st hne hst
    simp only [handle_query_option, J.findD, hname, Option.getD, hqcb, List.isEmpty_nil,
      if_true, if_neg hne, hst]
    rw [query_all_loop_none_cache]
    simp
  · intro hne hst
    simp only [handle_query_option, J.findD, hname, Option.getD, hqcb, List.isEmpty_nil,
      if_true, if_neg hne, hst]
    rw [query_all_loop_none_cache]
    simp

/-- C7, witness: the query-all property at a concrete request with empty
stream name on a server with one device-level option. -/
theorem C7_query_all_scope_witness :
    ("" = "" →
       handle_query_option runningServer cbsNone qreq_all (J.obj []) =
         (runningServer, (J.obj []).setKey "option-values"
            (J.obj (runningServer.options.map (fun o => (o.name, J.num o.value)))), none)) ∧
    (∀ st, "" ≠ "" → runningServer.stream_name_to_server.lookup "" = some st →
       handle_query_option runningServer cbsNone qreq_all (J.obj []) =
         (runningServer, (J.obj []).setKey "option-values"
            (J.obj (st.options.map (fun o => (o.name, J.num o.value)))), none)) ∧
    ("" ≠ "" → runningServer.stream_name_to_server.lookup "" = none →
       handle_query_option runningServer cbsNone qreq_all (J.obj []) =
         (runningServer, (J.obj []).setKey "option-values" (J.obj []), none)) :=
  C7_query_all_scope runningServer cbsNone qreq_all (J.obj []) "" rfl rfl rfl

theorem publish_notification_ok_fields (s : ServerState) (pub_ok : Bool) (n : J)
    (s2 : ServerState)
    (h : dds_device_server.publish_notification s pub_ok n = .ok s2) :
    s2.options = s.options ∧ s2.stream_name_to_server = s.stream_name_to_server := by
  unfold dds_device_server.publish_notification at h
  rcases hs : s.notification_server with _ | ns
  · rw [hs] at h
    exact absurd h (by simp)
  · rw [hs] at h
    simp only [NotificationServer.send_notification] at h
    cases pub_ok
    · simp at h
    · simp only [if_true] at h
      injection h with h
      rw [← h]
      exact ⟨rfl, rfl⟩

theorem run_task_error_eval (s : ServerState) (cbs : Callbacks) (pub_ok : Bool)
    (j : J) (sm : Sample) (s1 : ServerState) (r1 : J) (e : String)
    (hct : control_try s cbs j (J.obj [("sample", sample_j sm)]) = (s1, r1, some e))
    (hro : r1.isObj = true) :
    (run_task s cbs pub_ok j sm).reply.findKey "status" = some (J.str "error") ∧
    (run_task s cbs pub_ok j sm).reply.findKey "explanation" = some (J.str e) ∧
    (run_task s cbs pub_ok j sm).state.options = s1.options ∧
    (run_task s cbs pub_ok j sm).state.stream_name_to_server =
      s1.stream_name_to_server := by
  have h1 : ((r1.setKey "status" (J.str "error")).setKey "explanation"
      (J.str e)).findKey "explanation" = some (J.str e) :=
    J.findKey_setKey_self _ (J.isObj_setKey r1 hro "status" (J.str "error"))
      "explanation" (J.str e)
  have h2 : ((r1.setKey "status" (J.str "error")).setKey "explanation"
      (J.str e)).findKey "status" = some (J.str "error") := by
    rw [J.findKey_setKey_ne _ "explanation" "status" (J.str e) (by decide)]
    exact J.findKey_setKey_self r1 hro "status" (J.str "error")
  simp only [run_task, hct, caught_reply]
  rcases hp : dds_device_server.publish_notification s1 pub_ok
      ((r1.setKey "status" (J.str "error")).setKey "explanation" (J.str e))
    with s2 | e2 | _ <;> simp only [hp]
  · obtain ⟨hf1, hf2⟩ := publish_notification_ok_fields s1 pub_ok _ s2 hp
    exact ⟨h2, h1, hf1, hf2⟩
  · exact ⟨h2, h1, by trivial, by trivial⟩
  · exact ⟨h2, h1, by trivial, by trivial⟩

/-- C8 (confirmed): a set-option request whose option name does not
resolve in the selected scope yields an error reply whose explanation
names the scope — the literal word device for device scope, or the
stream name in single quotes — together with the option name, and the
request changes no cached option value (device options and the stream
map are untouched). -/
theorem C8_set_option_unknown (s : ServerState) (cbs : Callbacks) (pub_ok : Bool)
    (j : J) (sm : Sample) (option_name stream_name : String)
    (hid : j.findKey "id" = some (J.str "set-option"))
    (hname : j.findKey "option-name" = some (J.str option_name))
    (hstream : stream_name_of j = stream_name)
    (hopt : find_option s option_name stream_name = none) :
    (run_task s cbs pub_ok j sm).state.options = s.options ∧
    (run_task s cbs pub_ok j sm).state.stream_name_to_server =
      s.stream_name_to_server ∧
    (run_task s cbs pub_ok j sm).reply.findKey "status" = some (J.str "error") ∧
    (run_task s cbs pub_ok j sm).reply.findKey "explanation" =
      some (J.str (scope_name stream_name ++ " option \x27" ++ option_name
        ++ "\x27 not found")) := by
  subst hstream
  have hct : control_try s cbs j (J.obj [("sample", sample_j sm)]) =
      (s, J.obj [("sample", sample_j sm), ("id", J.str "set-option"), ("control", j)],
       some (scope_name (stream_name_of j) ++ " option \x27" ++ option_name
         ++ "\x27 not found")) := by
    simp [control_try, hid, handle_control_message, handle_set_option, hname, hopt,
      J.setKey, J.setKeyList]
  obtain ⟨h1, h2, h3, h4⟩ := run_task_error_eval s cbs pub_ok j sm _ _ _ hct rfl
  exact ⟨h3, h4, h1, h2⟩

/-- C8, witness: the unknown-option property at a concrete set-option
request on the unknown option "bogus" of stream "color". -/
theorem C8_set_option_unknown_witness :
    (run_task runningServer cbsNone true sreq_unknown sample0).state.options =
      runningServer.options ∧
    (run_task runningServer cbsNone true sreq_unknown sample0).state.stream_name_to_server =
      runningServer.stream_name_to_server ∧
    (run_task runningServer cbsNone true sreq_unknown sample0).reply.findKey "status" =
      some (J.str "error") ∧
    (run_task runningServer cbsNone true sreq_unknown sample0).reply.findKey "explanation" =
      some (J.str (scope_name "color" ++ " option \x27" ++ "bogus" ++ "\x27 not found")) :=
  C8_set_option_unknown runningServer cbsNone true sreq_unknown sample0 "bogus" "color"
    rfl rfl rfl rfl

/-- C9 (confirmed): a dispatcher task for a control message never lets
an exception escape: given an initialized server (publishing cannot
null-dereference) and a control callback that keeps the reply an
object, the task always terminates normally; whenever the try block —
id extraction or the handler — throws, the published reply carries
`status: error` and an `explanation` equal to the failure text; and a
failing publish is swallowed, leaving the reply merely unpublished. -/
theorem C9_task_never_escapes (s : ServerState) (cbs : Callbacks) (pub_ok : Bool)
    (j : J) (sm : Sample)
    (hns : s.notification_server.isSome = true)
    (hobj : ∀ g, cbs.control_callback = some g → ∀ a b c, ((g a b c).1.isObj = true)) :
    (run_task s cbs pub_ok j sm).crashed = false ∧
    (∀ e, (control_try s cbs j (J.obj [("sample", sample_j sm)])).2.2 = some e →
       (run_task s cbs pub_ok j sm).reply.findKey "status" = some (J.str "error") ∧
       (run_task s cbs pub_ok j sm).reply.findKey "explanation" = some (J.str e)) ∧
    (pub_ok = false → (run_task s cbs pub_ok j sm).published = false) := by
  obtain ⟨hc, _⟩ := run_task_ok s cbs pub_ok j sm hns
  refine ⟨hc, ?_, ?_⟩
  · intro e he
    rcases hct : control_try s cbs j (J.obj [("sample", sample_j sm)]) with ⟨s1, r1, err⟩
    rw [hct] at he
    have herr : err = some e := he
    subst herr
    have hro : r1.isObj = true := by
      have h := control_try_reply_isObj s cbs j (J.obj [("sample", sample_j sm)]) hobj rfl
      rw [hct] at h
      exact h
    obtain ⟨h1, h2, _, _⟩ := run_task_error_eval s cbs pub_ok j sm s1 r1 e hct hro
    exact ⟨h1, h2⟩
  · intro hp0
    subst hp0
    rcases hct : control_try s cbs j (J.obj [("sample", sample_j sm)]) with ⟨s1, r1, err⟩
    have hns1 : s1.notification_server = s.notification_server := by
      have h := control_try_ns s cbs j (J.obj [("sample", sample_j sm)])
      rw [hct] at h
      exact h
    rcases hsome : s.notification_server with _ | ns
    · rw [hsome] at hns
      simp at hns
    simp [run_task, hct, dds_device_server.publish_notification, hns1, hsome,
      NotificationServer.send_notification]

/-- C9, witness: the never-escapes property at a concrete malformed
control message (no `id` field) with a failing publish. -/
theorem C9_task_never_escapes_witness :
    (run_task runningServer cbsNone false J.null sample0).crashed = false ∧
    (∀ e, (control_try runningServer cbsNone J.null
         (J.obj [("sample", sample_j sample0)])).2.2 = some e →
       (run_task runningServer cbsNone false J.null sample0).reply.findKey "status" =
         some (J.str "error") ∧
       (run_task runningServer cbsNone false J.null sample0).reply.findKey "explanation" =
         some (J.str e)) ∧
    (false = false → (run_task runningServer cbsNone false J.null sample0).published = false) :=
  C9_task_never_escapes runningServer cbsNone false J.null sample0 rfl
    (fun _ h => Option.noConfusion h)

/-- C10 (confirmed): after `broadcast_disconnect` on a server that has
broadcast, the broadcaster handle is released, and a subsequent
`broadcast` with a device-info whose topic root matches the server's
does not raise the already-broadcast error — it creates a new
broadcaster: the one-shot restriction is per broadcast/disconnect
cycle, not per server lifetime. -/
theorem C10_broadcast_cycle (s : ServerState) (root : String)
    (hb : s.broadcaster = true)
    (hns : s.notification_server.isSome = true)
    (hroot : root = s.topic_root) :
    (dds_device_server.broadcast_disconnect s).broadcaster = false ∧
    dds_device_server.broadcast (dds_device_server.broadcast_disconnect s) root =
      ({ dds_device_server.broadcast_disconnect s with broadcaster := true }, none) := by
  have hd : dds_device_server.broadcast_disconnect s = { s with broadcaster := false } := by
    simp [dds_device_server.broadcast_disconnect, hb]
  rw [hd]
  have hn : ({ s with broadcaster := false } : ServerState).notification_server.isNone
      = false := by
    rcases hs : s.notification_server with _ | ns
    · rw [hs] at hns
      simp at hns
    · simp [hs]
  refine ⟨rfl, ?_⟩
  simp [dds_device_server.broadcast, hn, hroot]

/-- C10, witness: the broadcast/disconnect/broadcast cycle at a concrete
server that has broadcast. -/
theorem C10_broadcast_cycle_witness :
    (dds_device_server.broadcast_disconnect bcastServer).broadcaster = false ∧
    dds_device_server.broadcast (dds_device_server.broadcast_disconnect bcastServer)
        "realdds/device" =
      ({ dds_device_server.broadcast_disconnect bcastServer with broadcaster := true },
       none) :=
  C10_broadcast_cycle bcastServer "realdds/device" rfl rfl rfl
